import Mathlib

/-!
Verification of the Plugwise Home Assistant platform fragment
(`homeassistant/components/plugwise`: climate.py, models.py, sensor.py,
number.py).

The development shallowly embeds the value-resolution core (models.py,
sensor.py) and the climate mode/action derivation core (climate.py) as
executable Lean functions and proves the documented properties about them.

Conventions of the embedding:
* Python dictionaries accessed with `.get(k)` become `Option` fields;
  dictionaries indexed directly (`d[k]`, raising `KeyError` when absent)
  become `Option` fields whose absence propagates as `Option.none` or an
  explicit error value of the whole computation.
* Python `list.append` is `· ++ [x]`; `list.remove` is `listRemove`,
  which fails (the `ValueError` of CPython) when the element is absent.
* `float` temperatures are embedded as rationals; none of the verified
  routines performs rounding arithmetic on them.
-/

namespace Plugwise

/-! ## Climate data model (climate.py) -/

/-- The HVAC mode values relevant to `PlugwiseClimateEntity.hvac_modes`
(a sublist of the Home Assistant `HVACMode` enum). -/
inductive HVACMode where
  | heat
  | cool
  | heat_cool
  | auto
  deriving DecidableEq, Repr

/-- The string value of each `HVACMode` member of the Home Assistant
`StrEnum` (used by the membership test `mode not in self.hvac_modes`). -/
def modeStr : HVACMode → String
  | .heat => "heat"
  | .cool => "cool"
  | .heat_cool => "heat_cool"
  | .auto => "auto"

/-- The HVAC action values returned by `PlugwiseClimateEntity.hvac_action`. -/
inductive HVACAction where
  | heating
  | cooling
  | idle
  deriving DecidableEq, Repr

/-- The `binary_sensors` sub-dictionary of the heater device record.
`heating_state` is indexed directly in `hvac_action` (hence absence is a
`KeyError`); `cooling_state` is read with `.get("cooling_state", False)`. -/
structure BinarySensors where
  heating_state : Option Bool
  cooling_state : Option Bool
  deriving DecidableEq, Repr

/-- The heater device record `self.hc_data`
(`coordinator.data.devices[gateway["heater_id"]]`), restricted to the keys
the climate properties read.  The three cooling flags are read with
`.get(flag, False)`, so an absent key and a stored `False` are
observationally equal and both are embedded as `false`.  The
`binary_sensors` dictionary itself is indexed directly, hence `Option`. -/
structure HeaterData where
  elga_cooling_enabled : Bool
  lortherm_cooling_enabled : Bool
  adam_cooling_enabled : Bool
  binary_sensors : Option BinarySensors
  deriving DecidableEq, Repr

/-- The thermostat device record `self.device`, restricted to the keys the
verified climate properties read: `mode` and `control_state` are read with
`.get`, `available_schedules` is indexed directly (the verified properties
presuppose a record carrying it, so it is embedded as a plain field). -/
structure ClimateDevice where
  mode : Option String
  control_state : Option String
  available_schedules : List String
  deriving DecidableEq, Repr

/-- CPython `list.remove`: drop the first occurrence of `x`, failing with
`ValueError` (embedded as `none`) when `x` does not occur. -/
def listRemove {α : Type} [DecidableEq α] (xs : List α) (x : α) : Option (List α) :=
  if x ∈ xs then some (xs.erase x) else none

/-- The cooling section of `PlugwiseClimateEntity.hvac_modes` (climate.py
lines 110 to 119), starting from the list `[HVACMode.HEAT]`.  The gateway
flag `cooling_present` is `self.coordinator.data.gateway["cooling_present"]`.
The two cooling branches are two consecutive `if` statements (not
`if`/`elif`), each of which appends a mode and then removes `HEAT`; the
returned `none` is the `ValueError` that CPython `list.remove` raises when
`HEAT` is already gone. -/
def cooling_modes (cooling_present : Bool) (hc : HeaterData) :
    Option (List HVACMode) :=
  let modes : List HVACMode := [HVACMode.heat]
  if cooling_present then
    let afterElga : Option (List HVACMode) :=
      if hc.elga_cooling_enabled then
        listRemove (modes ++ [HVACMode.heat_cool]) HVACMode.heat
      else some modes
    match afterElga with
    | none => none
    | some ms =>
      if hc.lortherm_cooling_enabled || hc.adam_cooling_enabled then
        listRemove (ms ++ [HVACMode.cool]) HVACMode.heat
      else some ms
  else some modes

/-- `PlugwiseClimateEntity.hvac_modes` (climate.py lines 107 to 123): the
cooling section followed by the schedule check of lines 120 to 121, which
appends `AUTO` exactly when `self.device["available_schedules"]` differs
from the one-element list `["None"]`. -/
def hvac_modes (cooling_present : Bool) (hc : HeaterData) (dev : ClimateDevice) :
    Option (List HVACMode) :=
  match cooling_modes cooling_present hc with
  | none => none
  | some ms =>
    if dev.available_schedules ≠ ["None"] then some (ms ++ [HVACMode.auto])
    else some ms

/-- `PlugwiseClimateEntity.hvac_mode` (climate.py lines 100 to 105), with the
`self.hvac_modes` list passed explicitly.  `HVACMode(mode)` on a string that
is a member of the list is the (first, and by injectivity of `modeStr` the
unique) member whose string value equals it. -/
def hvac_mode (dev : ClimateDevice) (modes : List HVACMode) : HVACMode :=
  match dev.mode with
  | none => HVACMode.heat
  | some s =>
    match modes.find? (fun m => modeStr m == s) with
    | none => HVACMode.heat
    | some m => m

/-- `PlugwiseClimateEntity.hvac_action` (climate.py lines 125 to 143).
`control_state` defaults to `"not_found"`; the flag fallback indexes
`hc_data["binary_sensors"]["heating_state"]` directly (a `KeyError`,
embedded as `none`, when either key is absent) and reads
`cooling_state` with a `False` default. -/
def hvac_action (dev : ClimateDevice) (hc : HeaterData) : Option HVACAction :=
  let control_state : String := dev.control_state.getD "not_found"
  if control_state = "cooling" then some HVACAction.cooling
  else if control_state = "heating" ∨ control_state = "preheating" then
    some HVACAction.heating
  else if control_state = "off" then some HVACAction.idle
  else
    match hc.binary_sensors with
    | none => none
    | some bs =>
      match bs.heating_state with
      | none => none
      | some h =>
        if h then some HVACAction.heating
        else if bs.cooling_state.getD false then some HVACAction.cooling
        else some HVACAction.idle

/-! ## Temperature command validation (climate.py, `async_set_temperature`) -/

/-- The keyword arguments of `async_set_temperature`: the framework keys
`ATTR_TEMPERATURE`, `ATTR_TARGET_TEMP_HIGH` and `ATTR_TARGET_TEMP_LOW`.
A `some` field is a key present in `kwargs` with the given value. -/
structure SetTempKwargs where
  temperature : Option ℚ
  target_temp_high : Option ℚ
  target_temp_low : Option ℚ
  deriving DecidableEq, Repr

/-- The `data` dictionary built by `async_set_temperature` (climate.py lines
172 to 178), in its insertion order. -/
def build_data (k : SetTempKwargs) : List (String × ℚ) :=
  (match k.temperature with
   | some t => [("setpoint", t)]
   | none => [])
  ++ (match k.target_temp_high with
      | some t => [("setpoint_high", t)]
      | none => [])
  ++ (match k.target_temp_low with
      | some t => [("setpoint_low", t)]
      | none => [])

/-- The validation loop of `async_set_temperature` (climate.py lines 180 to
182): raise `ValueError` naming the offending setpoint on the first
requested temperature outside the inclusive bounds. -/
def validate_setpoints (minTemp maxTemp : ℚ) :
    List (String × ℚ) → Except String Unit
  | [] => Except.ok ()
  | (sp, t) :: rest =>
    if minTemp ≤ t ∧ t ≤ maxTemp then validate_setpoints minTemp maxTemp rest
    else Except.error ("Invalid temperature change requested for " ++ sp)

/-- The one request issued to the external device-command interface,
`await self.coordinator.api.set_temperature(self.device["location"], data)`. -/
structure SetTempCommand where
  location : String
  data : List (String × ℚ)
  deriving DecidableEq, Repr

/-- `PlugwiseClimateEntity.async_set_temperature` (climate.py lines 169 to
184).  `minTemp` and `maxTemp` are `self._attr_min_temp` and
`self._attr_max_temp` (the thermostat lower and upper bounds captured at
construction).  An `Except.ok` value is the single command forwarded to the
external interface; an `Except.error` is the raised `ValueError`, before
which no command has been issued. -/
def async_set_temperature (minTemp maxTemp : ℚ) (location : String)
    (k : SetTempKwargs) : Except String SetTempCommand :=
  let data := build_data k
  match validate_setpoints minTemp maxTemp data with
  | Except.error e => Except.error e
  | Except.ok _ => Except.ok ⟨location, data⟩

/-! ## Value resolution (models.py, sensor.py) -/

/-- A value stored in a device-state record: a scalar or a nested
dictionary with string keys. -/
inductive PwVal where
  | num (n : Int)
  | dict (entries : List (String × PwVal))

/-- Python dictionary lookup on the entries of a `PwVal.dict`. -/
def dictFind : List (String × PwVal) → String → Option PwVal
  | [], _ => none
  | (k, v) :: rest, s => if k = s then some v else dictFind rest s

/-- Modelled from the spec: `get_nested_attr` is imported by models.py from
the repository module `utils`, which is not part of the examined sources.
Per the specification, a descriptor key or dotted path is traversed segment
by segment through the nested record and the result is Absent (`none`) as
soon as any segment is missing; a dot-free key is a direct lookup. -/
def walkPath : Option PwVal → List String → Option PwVal
  | cur, [] => cur
  | none, _ :: _ => none
  | some (PwVal.num _), _ :: _ => none
  | some (PwVal.dict entries), seg :: rest => walkPath (dictFind entries seg) rest

/-- Split a character list at each dot, as Python `attr.split(".")` does:
the empty string yields one empty segment, and a dot-free string yields
the single segment holding the whole string. -/
def splitSegsChar : List Char → List (List Char)
  | [] => [[]]
  | c :: rest =>
    let segs := splitSegsChar rest
    if c = '.' then [] :: segs
    else
      match segs with
      | [] => [[c]]
      | s :: ss => (c :: s) :: ss

/-- The dot-separated segments of an attribute string. -/
def splitSegs (attr : String) : List String :=
  (splitSegsChar attr.toList).map (fun cs => String.mk cs)

/-- Modelled from the spec (continued): traversal starts from the whole
record with the dot-separated segments of the attribute string. -/
def get_nested_attr (obj : PwVal) (attr : String) : Option PwVal :=
  walkPath (some obj) (splitSegs attr)

/-- The runtime errors that the body of
`PlugwiseRequiredKeysMixin.get_pw_value` can raise. -/
inductive PwError where
  /-- `NameError`: the first statement of `get_pw_value` is
  `LOGGER.info("HOI calling internal with %s", obj)` but models.py never
  defines or imports `LOGGER`. -/
  | nameErrorLogger
  /-- `AttributeError`: the callback branch returns `self.wp_value_fn(obj)`,
  and the dataclass has no attribute `wp_value_fn` (a misspelling of
  `pw_value_fn`). -/
  | attributeErrorWpValueFn
  /-- `RuntimeError("pw_value or key is required")`: raised when none of the
  three fields is set. -/
  | runtimeErrorRequired
  deriving DecidableEq, Repr

/-- `PlugwiseRequiredKeysMixin` (models.py lines 14 to 20): a dataclass with
three optional resolution fields, each defaulting to `None`.  The dataclass
constructor performs no validation, so any combination of fields, including
all three absent, constructs successfully. -/
structure PlugwiseRequiredKeysMixin where
  key : Option String := none
  pw_value : Option String := none
  pw_value_fn : Option (PwVal → Option PwVal) := none

/-- The evaluation of models.py line 24,
`LOGGER.info("HOI calling internal with %s", obj)`: since the name `LOGGER`
is not bound anywhere in models.py, this statement raises `NameError`
before any logging happens. -/
def logger_info_call : Except PwError Unit :=
  Except.error PwError.nameErrorLogger

/-- `PlugwiseRequiredKeysMixin.get_pw_value` (models.py lines 22 to 35),
statement by statement: first the `LOGGER.info` call of line 24, then the
`pw_value`, `pw_value_fn` and `key` branches, then the final
`raise RuntimeError`.  A `some` result of the `ok` payload is a resolved
scalar, a `none` is Python `None` (Absent). -/
def get_pw_value (d : PlugwiseRequiredKeysMixin) (obj : PwVal) :
    Except PwError (Option PwVal) := do
  logger_info_call
  match d.pw_value with
  | some p => return get_nested_attr obj p
  | none =>
    match d.pw_value_fn with
    | some _fn => throw PwError.attributeErrorWpValueFn
    | none =>
      match d.key with
      | some k => return get_nested_attr obj k
      | none => throw PwError.runtimeErrorRequired

/-- The resolution chain of `get_pw_value` taken on its own (models.py lines
25 to 35, the statements after the stray `LOGGER.info` line): the branch
structure that the `NameError` of line 24 makes unreachable. -/
def get_pw_value_resolution (d : PlugwiseRequiredKeysMixin) (obj : PwVal) :
    Except PwError (Option PwVal) :=
  match d.pw_value with
  | some p => Except.ok (get_nested_attr obj p)
  | none =>
    match d.pw_value_fn with
    | some _fn => Except.error PwError.attributeErrorWpValueFn
    | none =>
      match d.key with
      | some k => Except.ok (get_nested_attr obj k)
      | none => Except.error PwError.runtimeErrorRequired

/-- The membership filter of sensor.py `async_setup_entry` (lines 434 to
448): an entity is created for a device and a descriptor exactly when the
device has a `"sensors"` dictionary and `description.key` occurs among its
keys.  A descriptor whose `key` is `None` never matches a string key, so it
is silently skipped; no validation of the descriptor happens here. -/
def descriptor_key_matches (d : PlugwiseRequiredKeysMixin)
    (sensors : List (String × PwVal)) : Bool :=
  match d.key with
  | some k => (dictFind sensors k).isSome
  | none => false

/-- sensor.py `async_setup_entry` restricted to one device record: the list
of descriptors from the table for which an entity is registered.  The setup
path contains no error case: it only filters. -/
def setup_entities (sensors : List (String × PwVal))
    (table : List PlugwiseRequiredKeysMixin) : List PlugwiseRequiredKeysMixin :=
  table.filter (fun d => descriptor_key_matches d sensors)

/-- `PlugwiseSensorEntity.native_value` (sensor.py lines 469 to 472): the
per-read resolution call, `self.entity_description.get_pw_value(self.device["sensors"])`. -/
def native_value (d : PlugwiseRequiredKeysMixin)
    (sensors : List (String × PwVal)) : Except PwError (Option PwVal) :=
  get_pw_value d (PwVal.dict sensors)

/-! ## General lemmas about the embedded operations -/

/-- The string values of the four HVAC modes are pairwise distinct. -/
theorem modeStr_injective (a b : HVACMode) (h : modeStr a = modeStr b) : a = b := by
  cases a <;> cases b <;> first
    | rfl
    | exact absurd h (by decide)

/-- When the reported mode is missing or matches no member of the given
mode list, `hvac_mode` falls back to `HEAT`, whatever the list holds. -/
theorem hvac_mode_eq_heat_of_no_match (dev : ClimateDevice) (modes : List HVACMode)
    (h : ∀ s, dev.mode = some s → ∀ m ∈ modes, modeStr m ≠ s) :
    hvac_mode dev modes = HVACMode.heat := by
  cases hm : dev.mode with
  | none => simp [hvac_mode, hm]
  | some s =>
    have hnone : modes.find? (fun m => modeStr m == s) = none := by
      rw [List.find?_eq_none]
      intro m hmem
      simp [h s hm m hmem]
    simp [hvac_mode, hm, hnone]

/-- When the reported mode is the string value of a member of the given
mode list, `hvac_mode` returns that member. -/
theorem hvac_mode_eq_of_match (dev : ClimateDevice) (modes : List HVACMode)
    (s : String) (m : HVACMode) (hm : dev.mode = some s) (hmem : m ∈ modes)
    (hstr : modeStr m = s) : hvac_mode dev modes = m := by
  have hsome : (modes.find? (fun x => modeStr x == s)).isSome := by
    rw [List.find?_isSome]
    exact ⟨m, hmem, by simp [hstr]⟩
  obtain ⟨found, hfound⟩ := Option.isSome_iff_exists.mp hsome
  have hpred : modeStr found = s := by simpa using List.find?_some hfound
  have : found = m := modeStr_injective found m (by rw [hpred, hstr])
  subst this
  simp [hvac_mode, hm, hfound]

/-- `AUTO` is never produced by the cooling section: every successful
result of `cooling_modes` is free of it. -/
theorem auto_not_mem_cooling_modes (cp : Bool) (hc : HeaterData)
    (ms : List HVACMode) (h : cooling_modes cp hc = some ms) :
    HVACMode.auto ∉ ms := by
  rcases hc with ⟨e, l, a, bs⟩
  cases cp <;> cases e <;> cases l <;> cases a <;>
    simp_all [cooling_modes, listRemove] <;> subst h <;> decide

/-- With cooling absent at the installation level, the cooling section
leaves the initial `[HEAT]` untouched. -/
theorem cooling_modes_of_not_present (hc : HeaterData) :
    cooling_modes false hc = some [HVACMode.heat] := rfl

/-- The validation loop succeeds on a list of requests that all lie within
the inclusive bounds. -/
theorem validate_setpoints_ok (minTemp maxTemp : ℚ) (l : List (String × ℚ))
    (h : ∀ p ∈ l, minTemp ≤ p.2 ∧ p.2 ≤ maxTemp) :
    validate_setpoints minTemp maxTemp l = Except.ok () := by
  induction l with
  | nil => rfl
  | cons p rest ih =>
    obtain ⟨sp, t⟩ := p
    have hp := h (sp, t) (List.mem_cons_self _ _)
    simp only [validate_setpoints, if_pos hp]
    exact ih fun q hq => h q (List.mem_cons_of_mem _ hq)

/-- The first request of the data list, in insertion order, whose
temperature lies outside the inclusive bounds, when one exists: the request
at which the validation loop of `async_set_temperature` raises. -/
def first_out_of_range (minTemp maxTemp : ℚ) (data : List (String × ℚ)) :
    Option (String × ℚ) :=
  data.find? fun p => !(decide (minTemp ≤ p.2 ∧ p.2 ≤ maxTemp))

/-- When no request is out of range the validation loop succeeds. -/
theorem validate_setpoints_ok_of_none (minTemp maxTemp : ℚ)
    (l : List (String × ℚ)) (h : first_out_of_range minTemp maxTemp l = none) :
    validate_setpoints minTemp maxTemp l = Except.ok () := by
  apply validate_setpoints_ok
  intro p hp
  have hfalse := List.find?_eq_none.mp h p hp
  simpa using hfalse

/-- The validation loop fails at the first out-of-range request, naming its
setpoint channel; the named request belongs to the data list and is indeed
out of range. -/
theorem validate_setpoints_err (minTemp maxTemp : ℚ) (l : List (String × ℚ))
    (sp : String) (t : ℚ)
    (h : first_out_of_range minTemp maxTemp l = some (sp, t)) :
    validate_setpoints minTemp maxTemp l =
        Except.error ("Invalid temperature change requested for " ++ sp)
    ∧ (sp, t) ∈ l ∧ ¬(minTemp ≤ t ∧ t ≤ maxTemp) := by
  induction l with
  | nil => cases h
  | cons p rest ih =>
    obtain ⟨s0, t0⟩ := p
    unfold first_out_of_range at h
    by_cases hp : minTemp ≤ t0 ∧ t0 ≤ maxTemp
    · rw [List.find?_cons_of_neg _ (by simp [hp])] at h
      obtain ⟨he, hm, hr⟩ := ih h
      refine ⟨?_, List.mem_cons_of_mem _ hm, hr⟩
      simp only [validate_setpoints, if_pos hp]
      exact he
    · rw [List.find?_cons_of_pos _ (by simp [hp])] at h
      injection h with h
      obtain ⟨rfl, rfl⟩ := Prod.mk.inj h
      refine ⟨?_, List.mem_cons_self _ _, hp⟩
      simp only [validate_setpoints, if_neg hp]

/-! ## Claim theorems -/

/-- Claim C1.  The claim states that `hvac_modes` resolves deterministically
with first match wins: with cooling present and the combined flag
`elga_cooling_enabled` set, the result contains `HEAT_COOL` and never plain
`HEAT`, regardless of the brand-specific flags, with the `HEAT` removal not
applied additively across both branches.  The code violates this: the two
cooling branches are consecutive `if` statements, so with
`elga_cooling_enabled` and `adam_cooling_enabled` both true the second
branch runs `hvac_modes.remove(HVACMode.HEAT)` after `HEAT` is already
gone and CPython raises `ValueError` (embedded as `none`); no mode set is
produced at all.  This theorem evaluates the code at that failing input,
and also at the input with only the combined flag set, where the claimed
result `[HEAT_COOL]` does appear. -/
theorem hvac_modes_C1_both_flags_crash :
    hvac_modes true
      { elga_cooling_enabled := true, lortherm_cooling_enabled := false,
        adam_cooling_enabled := true, binary_sensors := none }
      { mode := none, control_state := none, available_schedules := ["None"] } = none
    ∧ hvac_modes true
        { elga_cooling_enabled := true, lortherm_cooling_enabled := false,
          adam_cooling_enabled := false, binary_sensors := none }
        { mode := none, control_state := none, available_schedules := ["None"] }
        = some [HVACMode.heat_cool] := by
  decide

/-- Claim C2, counterexample.  The claim states that a descriptor with only
a direct key configured resolves to `record[key]` when the key is present.
At the concrete descriptor with `key = "temperature"` and the record
mapping `"temperature"` to `21`, the key is present with value `21`, yet
`get_pw_value` returns no value: its first statement is the
`LOGGER.info` call of models.py line 24 and the name `LOGGER` is undefined
in models.py, so every call raises `NameError` before any strategy is
consulted. -/
theorem get_pw_value_C2_counterexample :
    dictFind [("temperature", PwVal.num 21)] "temperature" = some (PwVal.num 21)
    ∧ get_pw_value { key := some "temperature" }
        (PwVal.dict [("temperature", PwVal.num 21)])
        = Except.error PwError.nameErrorLogger :=
  ⟨rfl, rfl⟩

/-- Claim C2, amended.  For every descriptor and every record,
`get_pw_value` fails with the `NameError` raised by the undefined `LOGGER`
reference of models.py line 24, before any of the three resolution
strategies (nested path `pw_value`, callback `pw_value_fn`, direct `key`)
is consulted; no value is ever returned. -/
theorem get_pw_value_C2_amended (d : PlugwiseRequiredKeysMixin) (obj : PwVal) :
    get_pw_value d obj = Except.error PwError.nameErrorLogger := rfl

/-- Claim C3, counterexample.  The claim states that a descriptor with none
of the three resolution strategies is detected and signalled at setup time,
and that the resolve operation is never where the configuration error first
surfaces.  At the concrete all-`None` descriptor the opposite happens: the
dataclass constructs it, platform setup silently filters it out without any
signal, and the error surfaces only inside the resolution call itself: the
strategy chain of `get_pw_value` ends in the per-read
`RuntimeError` raise (itself preempted in the shipped code by the
`NameError` of the stray `LOGGER` line). -/
theorem get_pw_value_C3_counterexample :
    setup_entities [("temperature", PwVal.num 21)] [{ }] = []
    ∧ get_pw_value_resolution { } (PwVal.dict [("temperature", PwVal.num 21)])
        = Except.error PwError.runtimeErrorRequired
    ∧ get_pw_value { } (PwVal.dict [("temperature", PwVal.num 21)])
        = Except.error PwError.nameErrorLogger :=
  ⟨rfl, rfl, rfl⟩

/-- Claim C3, amended.  A descriptor configuring none of the three
resolution strategies passes setup without any signal (the dataclass
constructor performs no validation and the sensor platform setup only
filters on key membership), and the misconfiguration surfaces per read,
inside the resolve operation: the strategy chain of `get_pw_value` raises
`RuntimeError` there, and in the shipped code even that is preempted by the
`NameError` from the undefined `LOGGER` reference, also raised inside the
resolve operation. -/
theorem get_pw_value_C3_amended (d : PlugwiseRequiredKeysMixin)
    (hk : d.key = none) (hv : d.pw_value = none) (hf : d.pw_value_fn = none) :
    (∀ sensors, setup_entities sensors [d] = [])
    ∧ (∀ obj, get_pw_value_resolution d obj = Except.error PwError.runtimeErrorRequired)
    ∧ (∀ obj, get_pw_value d obj = Except.error PwError.nameErrorLogger) := by
  refine ⟨fun sensors => ?_, fun obj => ?_, fun obj => rfl⟩
  · simp [setup_entities, descriptor_key_matches, hk]
  · simp [get_pw_value_resolution, hk, hv, hf]

/-- Claim C3, witness for the amended theorem: the all-`None` descriptor at
a concrete sensors record. -/
theorem get_pw_value_C3_witness :
    setup_entities [("temperature", PwVal.num 21)] [{ pw_value_fn := none }] = []
    ∧ get_pw_value_resolution { pw_value_fn := none } (PwVal.num 0)
        = Except.error PwError.runtimeErrorRequired :=
  ⟨(get_pw_value_C3_amended { pw_value_fn := none } rfl rfl rfl).1 _,
   (get_pw_value_C3_amended { pw_value_fn := none } rfl rfl rfl).2.1 _⟩

/-- Claim C4.  `hvac_action` applies the two-tier priority: an explicit
status string `"cooling"` yields `COOLING`, `"heating"` or `"preheating"`
yields `HEATING`, and `"off"` yields `IDLE`, regardless of the binary flags
(the heater record `hc` is universally quantified in those branches); with
no status present it falls back to the binary flags: a true heating flag
yields `HEATING`, else a true cooling flag yields `COOLING`, else `IDLE`. -/
theorem hvac_action_C4 (dev : ClimateDevice) (hc : HeaterData) :
    (dev.control_state = some "cooling" →
        hvac_action dev hc = some HVACAction.cooling)
    ∧ (dev.control_state = some "heating" ∨ dev.control_state = some "preheating" →
        hvac_action dev hc = some HVACAction.heating)
    ∧ (dev.control_state = some "off" →
        hvac_action dev hc = some HVACAction.idle)
    ∧ (dev.control_state = none →
        ∀ bs, hc.binary_sensors = some bs →
          ∀ b, bs.heating_state = some b →
            hvac_action dev hc =
              some (if b then HVACAction.heating
                    else if bs.cooling_state.getD false then HVACAction.cooling
                    else HVACAction.idle)) := by
  refine ⟨fun h => ?_, fun h => ?_, fun h => ?_, fun h bs hbs b hb => ?_⟩
  · simp [hvac_action, h]
  · rcases h with h | h <;> simp [hvac_action, h]
  · simp [hvac_action, h]
  · simp only [hvac_action, h, Option.getD_none, Option.getD_some, hbs, hb]
    cases b <;> simp [apply_ite]

/-- Claim C4, witness: a record with status `"cooling"` and a true heating
flag still reports `COOLING`; status `"preheating"` reports `HEATING`; no
status with a true heating flag reports `HEATING`. -/
theorem hvac_action_C4_witness :
    hvac_action
        { mode := none, control_state := some "cooling", available_schedules := ["None"] }
        { elga_cooling_enabled := false, lortherm_cooling_enabled := false,
          adam_cooling_enabled := false, binary_sensors := some ⟨some true, none⟩ }
        = some HVACAction.cooling
    ∧ hvac_action
        { mode := none, control_state := some "preheating", available_schedules := ["None"] }
        { elga_cooling_enabled := false, lortherm_cooling_enabled := false,
          adam_cooling_enabled := false, binary_sensors := none }
        = some HVACAction.heating
    ∧ hvac_action
        { mode := none, control_state := none, available_schedules := ["None"] }
        { elga_cooling_enabled := false, lortherm_cooling_enabled := false,
          adam_cooling_enabled := false, binary_sensors := some ⟨some true, none⟩ }
        = some HVACAction.heating := by
  refine ⟨(hvac_action_C4 _ _).1 rfl, (hvac_action_C4 _ _).2.1 (Or.inr rfl), ?_⟩
  have := (hvac_action_C4
    { mode := none, control_state := none, available_schedules := ["None"] }
    { elga_cooling_enabled := false, lortherm_cooling_enabled := false,
      adam_cooling_enabled := false,
      binary_sensors := some ⟨some true, none⟩ }).2.2.2 rfl ⟨some true, none⟩ rfl true rfl
  simpa using this

/-- Claim C5.  `hvac_mode` returns `HEAT` when the reported mode is missing
or matches no member of the given available-mode list, and otherwise
returns the member it matches (the reported mode unchanged). -/
theorem hvac_mode_C5 (dev : ClimateDevice) (modes : List HVACMode) :
    ((dev.mode = none ∨ ∀ s, dev.mode = some s → ∀ m ∈ modes, modeStr m ≠ s) →
        hvac_mode dev modes = HVACMode.heat)
    ∧ (∀ s m, dev.mode = some s → m ∈ modes → modeStr m = s →
        hvac_mode dev modes = m) := by
  constructor
  · intro h
    refine hvac_mode_eq_heat_of_no_match dev modes fun s hs m hm => ?_
    rcases h with h | h
    · rw [h] at hs; cases hs
    · exact h s hs m hm
  · intro s m hm hmem hstr
    exact hvac_mode_eq_of_match dev modes s m hm hmem hstr

/-- Claim C5, witness: the reported mode `"cool"` with available modes
`[HEAT, AUTO]` falls back to `HEAT`. -/
theorem hvac_mode_C5_witness :
    hvac_mode { mode := some "cool", control_state := none, available_schedules := ["None"] }
      [HVACMode.heat, HVACMode.auto] = HVACMode.heat :=
  (hvac_mode_C5 _ _).1 (Or.inr fun s hs => by injection hs with h; subst h; decide)

/-- Claim C6.  `async_set_temperature` validates each of the up to three
setpoint channels against the inclusive bounds: when every requested
temperature is in range, the full data set is forwarded as the one command
of the `Except.ok` payload, and when any requested temperature is out of
range the call fails with a `ValueError` naming an offending setpoint
channel and no command is issued (no `Except.ok` payload exists). -/
theorem async_set_temperature_C6 (minTemp maxTemp : ℚ) (location : String)
    (k : SetTempKwargs) :
    (first_out_of_range minTemp maxTemp (build_data k) = none →
        async_set_temperature minTemp maxTemp location k =
          Except.ok ⟨location, build_data k⟩)
    ∧ (∀ sp t, first_out_of_range minTemp maxTemp (build_data k) = some (sp, t) →
        async_set_temperature minTemp maxTemp location k =
            Except.error ("Invalid temperature change requested for " ++ sp)
        ∧ (sp, t) ∈ build_data k ∧ ¬(minTemp ≤ t ∧ t ≤ maxTemp)) := by
  constructor
  · intro h
    have hok := validate_setpoints_ok_of_none minTemp maxTemp (build_data k) h
    simp [async_set_temperature, hok]
  · intro sp t h
    obtain ⟨herr, hm, hr⟩ :=
      validate_setpoints_err minTemp maxTemp (build_data k) sp t h
    exact ⟨by simp [async_set_temperature, herr], hm, hr⟩

/-- Claim C6, witness: with bounds 10 to 30, the request holding only
`setpoint = 45` fails naming `"setpoint"` and issues no command, and the
request `setpoint = 21, setpoint_high = 25` succeeds with both values
forwarded together in one command. -/
theorem async_set_temperature_C6_witness :
    async_set_temperature 10 30 "loc" ⟨some 45, none, none⟩ =
        Except.error "Invalid temperature change requested for setpoint"
    ∧ async_set_temperature 10 30 "loc" ⟨some 21, some 25, none⟩ =
        Except.ok ⟨"loc", [("setpoint", 21), ("setpoint_high", 25)]⟩ :=
  ⟨((async_set_temperature_C6 10 30 "loc" ⟨some 45, none, none⟩).2
      "setpoint" 45 rfl).1,
   (async_set_temperature_C6 10 30 "loc" ⟨some 21, some 25, none⟩).1 rfl⟩

/-- Claim C7, counterexample.  The claim states that `AUTO` is included
exactly when the device has at least one configured schedule other than the
sentinel `"None"`.  At the concrete device whose schedule list is empty,
every schedule in the list is (vacuously) the sentinel and the claim
demands no `AUTO`, yet the code compares the list against the one-element
sentinel list and an empty list differs from it, so `AUTO` is added. -/
theorem hvac_modes_C7_counterexample :
    (([] : List String).all (fun s => s == "None")) = true
    ∧ hvac_modes false
        { elga_cooling_enabled := false, lortherm_cooling_enabled := false,
          adam_cooling_enabled := false, binary_sensors := none }
        { mode := none, control_state := none, available_schedules := [] }
        = some [HVACMode.heat, HVACMode.auto] :=
  ⟨rfl, by decide⟩

/-- Claim C7, amended.  Whenever `hvac_modes` produces a mode set, that set
includes `AUTO` exactly when the schedule list differs from the exact
one-element sentinel list `["None"]`; in particular an empty list or a list
of several sentinel entries still gets `AUTO`, and only the exact singleton
sentinel list suppresses it. -/
theorem hvac_modes_C7_amended (cp : Bool) (hc : HeaterData) (dev : ClimateDevice)
    (ms : List HVACMode) (h : hvac_modes cp hc dev = some ms) :
    HVACMode.auto ∈ ms ↔ dev.available_schedules ≠ ["None"] := by
  unfold hvac_modes at h
  cases hcm : cooling_modes cp hc with
  | none => rw [hcm] at h; cases h
  | some pre =>
    rw [hcm] at h
    dsimp only at h
    have hauto := auto_not_mem_cooling_modes cp hc pre hcm
    by_cases hs : dev.available_schedules ≠ ["None"]
    · rw [if_pos hs] at h
      injection h with h
      subst h
      simp [hs]
    · rw [if_neg hs] at h
      injection h with h
      subst h
      constructor
      · intro hmem
        exact absurd hmem hauto
      · intro hne
        exact absurd hne hs

/-- Claim C7, witness for the amended theorem: the device with the exact
sentinel list gets no `AUTO`, and an otherwise equal device with one real
schedule does. -/
theorem hvac_modes_C7_witness :
    (HVACMode.auto ∈ [HVACMode.heat] ↔
        (["None"] : List String) ≠ ["None"])
    ∧ (HVACMode.auto ∈ [HVACMode.heat, HVACMode.auto] ↔
        (["schema1"] : List String) ≠ ["None"]) :=
  ⟨hvac_modes_C7_amended false
      { elga_cooling_enabled := false, lortherm_cooling_enabled := false,
        adam_cooling_enabled := false, binary_sensors := none }
      { mode := none, control_state := none, available_schedules := ["None"] }
      [HVACMode.heat] (by decide),
   hvac_modes_C7_amended false
      { elga_cooling_enabled := false, lortherm_cooling_enabled := false,
        adam_cooling_enabled := false, binary_sensors := none }
      { mode := none, control_state := none, available_schedules := ["schema1"] }
      [HVACMode.heat, HVACMode.auto] (by decide)⟩

/-- Claim C8.  With cooling absent at the installation level, `hvac_modes`
yields exactly `[HEAT]`, plus possibly `AUTO`, for every heater record and
every device record; in particular the result never holds `COOL` or
`HEAT_COOL` and the derivation never fails. -/
theorem hvac_modes_C8 (hc : HeaterData) (dev : ClimateDevice) :
    hvac_modes false hc dev = some [HVACMode.heat]
    ∨ hvac_modes false hc dev = some [HVACMode.heat, HVACMode.auto] := by
  unfold hvac_modes
  rw [cooling_modes_of_not_present]
  dsimp only
  by_cases hs : dev.available_schedules ≠ ["None"]
  · right
    rw [if_pos hs]
    rfl
  · left
    rw [if_neg hs]

/-- Claim C9 (implicit).  The `HEAT` fallback of `hvac_mode` is
unconditional with respect to the available modes: whenever the reported
mode is missing or matches no member of the advertised mode set, the result
is `HEAT` even when `HEAT` itself is not in that set.  The concrete part
exhibits this: with cooling present and the combined flag set the
advertised set is `[HEAT_COOL]`, yet a device without a reported mode
yields `HEAT`, which lies outside the advertised set. -/
theorem hvac_mode_C9 :
    (∀ (cp : Bool) (hc : HeaterData) (dev : ClimateDevice) (ms : List HVACMode),
        hvac_modes cp hc dev = some ms →
        (∀ s, dev.mode = some s → ∀ m ∈ ms, modeStr m ≠ s) →
        hvac_mode dev ms = HVACMode.heat)
    ∧ hvac_modes true
        { elga_cooling_enabled := true, lortherm_cooling_enabled := false,
          adam_cooling_enabled := false, binary_sensors := none }
        { mode := none, control_state := none, available_schedules := ["None"] }
        = some [HVACMode.heat_cool]
    ∧ hvac_mode { mode := none, control_state := none, available_schedules := ["None"] }
        [HVACMode.heat_cool] = HVACMode.heat
    ∧ HVACMode.heat ∉ [HVACMode.heat_cool] :=
  ⟨fun _cp _hc dev ms _ h => hvac_mode_eq_heat_of_no_match dev ms h,
   by decide, by decide, by decide⟩

/-- Claim C9, witness for the universally quantified part: a reported mode
`"cool"` not in the advertised set `[HEAT, AUTO]` yields `HEAT`. -/
theorem hvac_mode_C9_witness :
    hvac_mode { mode := some "cool", control_state := none,
                available_schedules := ["schema1"] }
      [HVACMode.heat, HVACMode.auto] = HVACMode.heat :=
  hvac_mode_C9.1 false
    { elga_cooling_enabled := false, lortherm_cooling_enabled := false,
      adam_cooling_enabled := false, binary_sensors := none }
    { mode := some "cool", control_state := none, available_schedules := ["schema1"] }
    [HVACMode.heat, HVACMode.auto] (by decide)
    (fun s hs => by injection hs with h; subst h; decide)

/-- Claim C10 (implicit).  When no recognized status string is present, the
flag fallback of `hvac_action` succeeds exactly when the heater record
carries a `binary_sensors` mapping with a `heating_state` key: that key is
indexed directly, while `cooling_state` is read with a `False` default, so
under the precondition the fallback never fails, and without it the read
fails with a `KeyError`. -/
theorem hvac_action_C10 (dev : ClimateDevice) (hc : HeaterData)
    (h : dev.control_state.getD "not_found" ∉
        (["cooling", "heating", "preheating", "off"] : List String)) :
    (hvac_action dev hc).isSome = true ↔
      ∃ bs, hc.binary_sensors = some bs ∧ ∃ b, bs.heating_state = some b := by
  simp only [List.mem_cons, List.not_mem_nil, or_false, not_or] at h
  obtain ⟨h1, h2, h3, h4⟩ := h
  have h23 : ¬(dev.control_state.getD "not_found" = "heating" ∨
      dev.control_state.getD "not_found" = "preheating") := by
    rintro (hx | hx)
    · exact h2 hx
    · exact h3 hx
  simp only [hvac_action, if_neg h1, if_neg h23, if_neg h4]
  cases hbs : hc.binary_sensors with
  | none => simp
  | some bs =>
    cases hh : bs.heating_state with
    | none => simp [hh]
    | some b =>
      constructor
      · intro _
        exact ⟨bs, rfl, b, hh⟩
      · intro _
        cases b
        · by_cases hcool : bs.cooling_state.getD false = true <;> simp [hh, hcool]
        · simp [hh]

/-- Claim C10, witness: with no status string and a heater record whose
`binary_sensors` carries `heating_state`, the flag fallback produces an
action. -/
theorem hvac_action_C10_witness :
    (hvac_action { mode := none, control_state := none, available_schedules := ["None"] }
        { elga_cooling_enabled := false, lortherm_cooling_enabled := false,
          adam_cooling_enabled := false,
          binary_sensors := some ⟨some true, none⟩ }).isSome = true :=
  (hvac_action_C10 _ _ (by decide)).mpr ⟨⟨some true, none⟩, rfl, true, rfl⟩

end Plugwise
